import Mathlib

/-!
Shallow embedding of the raspberry-pi-pico-uart-gpio-hub repository
(client and server sources under src/src, headers under src/include),
together with theorems settling the frozen claims about it.

Machine integers are modelled as Nat with explicit reduction modulo
2 ^ 8 or 2 ^ 32 where the C code overflows or truncates.  The flash
sector is modelled as holding the persistent-state structure image:
save writes the structure, load reads it back (in C both directions
are whole-structure memcpy, whose composition is the identity), and
the CRC32 is computed over an explicit byte serialization.
-/

/-- Constants from src/include/config.h. -/
def MAX_NUMBER_OF_GPIOS : Nat := 26

/-- Reserved sentinel marking a device slot used by the UART link (config.h). -/
def UART_CONNECTION_FLAG_NUMBER : Nat := 99

/-- Number of preset configurations per client (config.h). -/
def NUMBER_OF_POSSIBLE_PRESETS : Nat := 5

/-- Control sentinel: soft reset via watchdog (config.h). -/
def TRIGGER_RESET_FLAG_NUMBER : Nat := 77

/-- Control sentinel: blink the onboard LED (config.h). -/
def BLINK_ONBOARD_LED_FLAG_NUMBER : Nat := 66

/-- Control sentinel: clear the sleep-request flag (config.h). -/
def WAKE_UP_FLAG_NUMBER : Nat := 55

/-- Control sentinel: set the sleep-request flag (config.h). -/
def DORMANT_FLAG_NUMBER : Nat := 44

/-- Number of UART0 candidate pin pairs (config.h). -/
def PIN_PAIRS_UART0_LEN : Nat := 3

/-- Number of UART1 candidate pin pairs (config.h). -/
def PIN_PAIRS_UART1_LEN : Nat := 2

/-- Capacity of the active-connection table (config.h). -/
def MAX_SERVER_CONNECTIONS : Nat := PIN_PAIRS_UART0_LEN + PIN_PAIRS_UART1_LEN

/-- INVALID_CLIENT_INDEX is -1 in src/include/server.h; the function that
returns it has return type uint32_t, so the value actually produced is
2 ^ 32 - 1. -/
def INVALID_CLIENT_INDEX_U32 : Nat := 2 ^ 32 - 1

/-- Number of addressable bank-0 GPIO pins on the RP2040 target platform
(the SDK constant NUM_BANK0_GPIOS); pin ids are valid below this bound. -/
def NUM_BANK0_GPIOS : Nat := 30

/-!  Wire codec: get_number_pair from src/src/common/functions.c.

The C routine scans the buffer with a cell index that starts at 0 and is
incremented at every comma; each digit multiplies the currently indexed
uint8_t cell by 10 and adds the digit, wrapping modulo 256.  The store
target received_number_pair[index] is modelled as an unbounded cell map
so that the store indices themselves can be observed; the C array has
only two cells, which is what claim C9 is about.  -/

/-- State of the get_number_pair scan: the cell map standing for
received_number_pair, the current cell index, and the list of indices of
all stores performed so far (in order). -/
structure CodecState where
  cells : Nat → Nat
  idx : Nat
  writes : List Nat

/-- Pointwise update of the cell map. -/
def updateCell (f : Nat → Nat) (i v : Nat) : Nat → Nat :=
  fun j => if j = i then v else f j

/-- One character of the get_number_pair loop: a digit (checked as in C by
0 <= c - 48 <= 9 over the character code) accumulates into the current
cell modulo 2 ^ 8; a comma advances the cell index; everything else is
skipped. -/
def codecStep (st : CodecState) (c : Char) : CodecState :=
  if 0 ≤ (c.toNat : Int) - 48 ∧ (c.toNat : Int) - 48 ≤ 9 then
    { st with
      cells := updateCell st.cells st.idx ((st.cells st.idx * 10 + (c.toNat - 48)) % 256),
      writes := st.writes ++ [st.idx] }
  else if c = ',' then
    { st with idx := st.idx + 1 }
  else
    st

/-- Initial state: callers zero-initialize received_number_pair. -/
def codecInit : CodecState := ⟨fun _ => 0, 0, []⟩

/-- Runs the get_number_pair loop over the whole buffer. -/
def codecRun (buf : String) : CodecState := buf.data.foldl codecStep codecInit

/-- get_number_pair (functions.c): the decoded pair is what the first two
cells hold after the scan. -/
def get_number_pair (buf : String) : Nat × Nat :=
  ((codecRun buf).cells 0, (codecRun buf).cells 1)

/-- The sequence of store indices performed by get_number_pair on a buffer. -/
def get_number_pair_writes (buf : String) : List Nat := (codecRun buf).writes

/-- Number of comma characters in a buffer. -/
def commaCount (buf : String) : Nat := (buf.data.filter (fun c => c = ',')).length

/-!  Client-side command dispatcher: src/src/client/apply_commands.c.  -/

/-- Primitive effects the client dispatcher can perform. -/
inductive GpioEffect where
  | gpioInit (g : Nat)
  | gpioSetDirOut (g : Nat)
  | gpioPut (g v : Nat)
  | gpioDeinit (g : Nat)
  | watchdogReboot
  | blinkLed
  | setGoDormant (b : Bool)
  deriving DecidableEq, Repr

/-- change_gpio (apply_commands.c): a nonzero level initializes the pin,
sets it as output and drives it; a zero level drives it low and releases
it to high-impedance input. -/
def change_gpio (pair : Nat × Nat) : List GpioEffect :=
  if pair.2 ≠ 0 then
    [GpioEffect.gpioInit pair.1, GpioEffect.gpioSetDirOut pair.1, GpioEffect.gpioPut pair.1 pair.2]
  else
    [GpioEffect.gpioPut pair.1 pair.2, GpioEffect.gpioDeinit pair.1]

/-- apply_command (apply_commands.c): the switch on the first received
byte; the default branch delegates unconditionally to change_gpio. -/
def apply_command (pair : Nat × Nat) : List GpioEffect :=
  if pair.1 = TRIGGER_RESET_FLAG_NUMBER then [GpioEffect.watchdogReboot]
  else if pair.1 = BLINK_ONBOARD_LED_FLAG_NUMBER then [GpioEffect.blinkLed]
  else if pair.1 = WAKE_UP_FLAG_NUMBER then [GpioEffect.setGoDormant false]
  else if pair.1 = DORMANT_FLAG_NUMBER then [GpioEffect.setGoDormant true]
  else change_gpio pair

/-- Excerpt of the claim vocabulary: whether a command byte is one of the
four reserved control sentinels. -/
def isReservedSentinel (a : Nat) : Bool :=
  a == TRIGGER_RESET_FLAG_NUMBER || a == BLINK_ONBOARD_LED_FLAG_NUMBER ||
  a == WAKE_UP_FLAG_NUMBER || a == DORMANT_FLAG_NUMBER

/-!  Default device numbering and the dispatcher slot-recovery map
(src/src/server/state_config.c and state_apply.c).  -/

/-- Default GPIO number assigned to device slot i (configure_running_state,
state_config.c): gpio_index + (gpio_index / 23) * 3. -/
def default_gpio_number (i : Nat) : Nat := i + (i / 23) * 3

/-- Slot-recovery map used when committing a device state
(server_set_device_state_and_update_flash, state_apply.c):
gpio_index > 22 ? gpio_index - 3 : gpio_index. -/
def recover_gpio_index (g : Nat) : Nat := if g > 22 then g - 3 else g

/-!  Data model from src/include/types.h.  The uart_inst_t pointer is
modelled as a numeric peripheral identifier (0 for uart0, 1 for uart1);
it is only ever compared for equality in the sources.  -/

/-- A UART TX/RX pin pair (types.h). -/
structure uart_pin_pair_t where
  tx : Nat
  rx : Nat
  deriving DecidableEq, Repr

/-- One controllable GPIO device on a client (types.h). -/
structure device_t where
  gpio_number : Nat
  is_on : Bool
  deriving DecidableEq, Repr

/-- A running or preset device set of a client (types.h); the C array has
MAX_NUMBER_OF_GPIOS entries. -/
structure client_state_t where
  devices : List device_t
  deriving DecidableEq, Repr

/-- An established UART connection as stored in a client record (types.h). -/
structure uart_connection_t where
  pin_pair : uart_pin_pair_t
  uart_instance : Nat
  deriving DecidableEq, Repr

/-- A complete client entry in the persistent state (types.h). -/
structure client_t where
  running_client_state : client_state_t
  preset_configs : List client_state_t
  uart_connection : uart_connection_t
  is_active : Bool
  deriving DecidableEq, Repr

/-- The full persistent state saved in flash (types.h). -/
structure server_persistent_state_t where
  clients : List client_t
  crc : Nat
  deriving DecidableEq, Repr

/-- An active connection detected by the server (types.h), including the
reverse pin pair reported by the client during the handshake.  The
is_dormant flag is the per-connection dormant mark read and written
throughout src/src/server (state_apply.c, state_handling.c,
client_communication.c). -/
structure server_uart_connection_t where
  pin_pair : uart_pin_pair_t
  uart_instance : Nat
  uart_pin_pair_from_client_to_server : uart_pin_pair_t
  is_dormant : Bool
  deriving DecidableEq, Repr

/-- UART0 candidate pin pairs (src/common/types.c). -/
def pin_pairs_uart0 : List uart_pin_pair_t := [⟨0, 1⟩, ⟨12, 13⟩, ⟨16, 17⟩]

/-- UART1 candidate pin pairs (src/common/types.c). -/
def pin_pairs_uart1 : List uart_pin_pair_t := [⟨4, 5⟩, ⟨8, 9⟩]

/-- Identifier standing for the uart0 peripheral pointer. -/
def uart0 : Nat := 0

/-- Identifier standing for the uart1 peripheral pointer. -/
def uart1 : Nat := 1

/-!  CRC32 and flash persistence: src/src/server/state_flash.c.  -/

/-- One bit of the CRC32 inner loop: shift right, conditionally folding in
the reversed polynomial 0xEDB88320. -/
def crc32_bit_step (crc : Nat) : Nat :=
  if crc % 2 = 1 then (crc / 2) ^^^ 0xEDB88320 else crc / 2

/-- One byte of compute_crc32: xor the byte in, then eight bit steps. -/
def crc32_byte_step (crc b : Nat) : Nat := crc32_bit_step^[8] (crc ^^^ (b % 256))

/-- compute_crc32 (state_flash.c): runs over the byte image with initial
value 0xFFFFFFFF and final bitwise complement (complement of a 32-bit
value is xor with 0xFFFFFFFF). -/
def compute_crc32 (bytes : List Nat) : Nat :=
  0xFFFFFFFF ^^^ bytes.foldl crc32_byte_step 0xFFFFFFFF

/-- Little-endian 4-byte image of a 32-bit word. -/
def u32Bytes (n : Nat) : List Nat :=
  [n % 256, n / 256 % 256, n / 65536 % 256, n / 16777216 % 256]

/-- Byte image of one device record. -/
def deviceBytes (d : device_t) : List Nat :=
  [d.gpio_number % 256, if d.is_on then 1 else 0]

/-- Byte image of one device set. -/
def clientStateBytes (cs : client_state_t) : List Nat :=
  (cs.devices.map deviceBytes).flatten

/-- Byte image of a stored UART connection. -/
def uartConnectionBytes (u : uart_connection_t) : List Nat :=
  [u.pin_pair.tx % 256, u.pin_pair.rx % 256] ++ u32Bytes u.uart_instance

/-- Byte image of one client record. -/
def clientBytes (c : client_t) : List Nat :=
  clientStateBytes c.running_client_state ++
  (c.preset_configs.map clientStateBytes).flatten ++
  uartConnectionBytes c.uart_connection ++
  [if c.is_active then 1 else 0]

/-- Byte image of the whole persistent state, fields in declaration order,
the crc word last. -/
def stateBytes (s : server_persistent_state_t) : List Nat :=
  (s.clients.map clientBytes).flatten ++ u32Bytes s.crc

/-- save_server_state (state_flash.c): copy the structure, zero its crc
field, recompute the CRC32 over the image, store it in the crc field and
program the sector.  The value returned here is the structure image the
sector holds afterwards (the erase-then-program of the byte buffer). -/
def save_server_state (s : server_persistent_state_t) : server_persistent_state_t :=
  let temp := { s with crc := 0 }
  { temp with crc := compute_crc32 (stateBytes temp) }

/-- load_server_state (state_flash.c): copy the sector image out, remember
the stored crc, recompute the CRC32 over the image with the crc field
zeroed, restore the stored crc, and report whether both agree.  The
flash sector is modelled as the structure image it holds (both transfer
directions are whole-structure memcpy). -/
def load_server_state (flash : server_persistent_state_t) :
    Bool × server_persistent_state_t :=
  let saved_crc := flash.crc
  let computed_crc := compute_crc32 (stateBytes { flash with crc := 0 })
  (saved_crc == computed_crc, flash)

/-!  Server-side configuration and state handling:
src/src/server/state_config.c, state_apply.c, state_handling.c and
client_communication.c.  The active-connection table
active_uart_server_connections (length active_server_connections_number,
capacity MAX_SERVER_CONNECTIONS) is modelled as a list of
server_uart_connection_t.  -/

/-- Applies f to the list element at a position; elsewhere the list is
unchanged, and an out-of-range position changes nothing. -/
def listModify {α : Type} (f : α → α) : Nat → List α → List α
  | _, [] => []
  | 0, a :: as => f a :: as
  | n + 1, a :: as => a :: listModify f n as

/-- Placeholder client record; the C sources never read a persistent index
out of range, so this value only keeps the model total. -/
def dummy_client : client_t := ⟨⟨[]⟩, [], ⟨⟨0, 0⟩, 0⟩, false⟩

/-- The loop shared by configure_running_state_uart_connection_pins and
configure_preset_configs_uart_connection_pins (state_config.c): find the
first active connection whose server-side TX pin equals the client
record's TX pin. -/
def find_matching_connection (conns : List server_uart_connection_t) (tx : Nat) :
    Option server_uart_connection_t :=
  conns.find? (fun c => c.pin_pair.tx == tx)

/-- Marks one device slot with the reserved UART sentinel (the is_on field
is left as it was). -/
def mark_uart_pin (cs : client_state_t) (i : Nat) : client_state_t :=
  ⟨listModify (fun d => { d with gpio_number := UART_CONNECTION_FLAG_NUMBER }) i cs.devices⟩

/-- Body of configure_running_state_uart_connection_pins and of
configure_preset_configs_uart_connection_pins (state_config.c): when an
active connection matches the record's TX pin, the two slots indexed by
the reverse pin pair reported by the client are marked reserved. -/
def configure_state_uart_connection_pins (conns : List server_uart_connection_t)
    (clientTx : Nat) (cs : client_state_t) : client_state_t :=
  match find_matching_connection conns clientTx with
  | none => cs
  | some conn =>
    mark_uart_pin (mark_uart_pin cs conn.uart_pin_pair_from_client_to_server.tx)
      conn.uart_pin_pair_from_client_to_server.rx

/-- The default device array written by configure_running_state and
configure_preset_configs (state_config.c): slot i carries GPIO number
i + (i / 23) * 3 and is off. -/
def default_devices : List device_t :=
  (List.range MAX_NUMBER_OF_GPIOS).map (fun i => ⟨default_gpio_number i, false⟩)

/-- configure_running_state (state_config.c). -/
def configure_running_state (conns : List server_uart_connection_t) (clientTx : Nat) :
    client_state_t :=
  configure_state_uart_connection_pins conns clientTx ⟨default_devices⟩

/-- configure_preset_configs (state_config.c): every preset receives the
default array and then the reserved marks. -/
def configure_preset_configs (conns : List server_uart_connection_t) (clientTx : Nat) :
    List client_state_t :=
  (List.range NUMBER_OF_POSSIBLE_PRESETS).map
    (fun _ => configure_state_uart_connection_pins conns clientTx ⟨default_devices⟩)

/-- configure_client (state_config.c): stores the candidate pin pair and
peripheral and rebuilds the running state and the presets; the is_active
field is not written by it. -/
def configure_client (conns : List server_uart_connection_t) (pp : uart_pin_pair_t)
    (inst : Nat) (old : client_t) : client_t :=
  { running_client_state := configure_running_state conns pp.tx,
    preset_configs := configure_preset_configs conns pp.tx,
    uart_connection := ⟨pp, inst⟩,
    is_active := old.is_active }

/-- The candidate list walked by server_configure_persistent_state: all
UART0 pairs with uart0, then all UART1 pairs with uart1. -/
def candidate_connections : List (uart_pin_pair_t × Nat) :=
  pin_pairs_uart0.map (fun p => (p, uart0)) ++ pin_pairs_uart1.map (fun p => (p, uart1))

/-- server_configure_persistent_state (state_config.c): configures one
client record per candidate pair, then commits with save_server_state. -/
def server_configure_persistent_state (conns : List server_uart_connection_t)
    (s : server_persistent_state_t) : server_persistent_state_t :=
  save_server_state
    { s with
      clients := List.zipWith (fun cand old => configure_client conns cand.1 cand.2 old)
        candidate_connections s.clients }

/-- server_reset_configuration (state_config.c): switches every device off
except the slots marked with the reserved UART sentinel. -/
def server_reset_configuration (cs : client_state_t) : client_state_t :=
  ⟨cs.devices.map (fun d =>
    if d.gpio_number ≠ UART_CONNECTION_FLAG_NUMBER then { d with is_on := false } else d)⟩

/-- client_has_active_devices (state_handling.c): true when any device of
the running state is on (slots are not filtered by GPIO number). -/
def client_has_active_devices (c : client_t) : Bool :=
  c.running_client_state.devices.any (fun d => d.is_on)

/-- Claim vocabulary: any device on, counting only slots that do not carry
the reserved UART sentinel. -/
def client_has_active_non_reserved_devices (c : client_t) : Bool :=
  c.running_client_state.devices.any
    (fun d => d.is_on && (d.gpio_number != UART_CONNECTION_FLAG_NUMBER))

/-- Claim vocabulary: the device slot at an index exists, carries the
reserved UART sentinel and is off. -/
def slot_reserved (cs : client_state_t) (i : Nat) : Bool :=
  match cs.devices[i]? with
  | some d => d.gpio_number == UART_CONNECTION_FLAG_NUMBER && !d.is_on
  | none => false

/-- Claim vocabulary: every slot carrying the reserved UART sentinel is
off, so such slots cannot influence client_has_active_devices. -/
def reserved_slots_off (cs : client_state_t) : Bool :=
  cs.devices.all (fun d => !(d.gpio_number == UART_CONNECTION_FLAG_NUMBER && d.is_on))

/-- Claim vocabulary (C3): the record's own link slots (the reverse pair of
the matching active connection, when there is one) are reserved and off
in the running set and in every preset, and reserved slots are off
everywhere. -/
def client_reserved_ok (conns : List server_uart_connection_t) (c : client_t) : Bool :=
  (match find_matching_connection conns c.uart_connection.pin_pair.tx with
   | some conn =>
      slot_reserved c.running_client_state conn.uart_pin_pair_from_client_to_server.tx &&
      slot_reserved c.running_client_state conn.uart_pin_pair_from_client_to_server.rx &&
      c.preset_configs.all (fun p =>
        slot_reserved p conn.uart_pin_pair_from_client_to_server.tx &&
        slot_reserved p conn.uart_pin_pair_from_client_to_server.rx)
   | none => true) &&
  reserved_slots_off c.running_client_state &&
  c.preset_configs.all reserved_slots_off

/-!  Registry reconciliation and transmissions.  -/

/-- Observable transmission events on a server-to-client link: the wake
pulse driven on the connection's reverse receive pin, and one bracketed
numeric-pair UART message. -/
inductive TxEvent where
  | wakePulse (rx : Nat)
  | uartMsg (a b : Nat)
  deriving DecidableEq, Repr

/-- wake_up_client (client_communication.c): drive the RX pin high then
low (the wake pulse), then send the wake-up flag pair over UART. -/
def wake_up_client (pp : uart_pin_pair_t) : List TxEvent :=
  [TxEvent.wakePulse pp.rx, TxEvent.uartMsg WAKE_UP_FLAG_NUMBER WAKE_UP_FLAG_NUMBER]

/-- get_active_client_connection_index_from_flash_client_index
(state_handling.c): the first active connection whose TX pin equals the
flash record's TX pin, else INVALID_CLIENT_INDEX, which through the
uint32_t return type is 2 ^ 32 - 1.  The C code reads the flash record
unconditionally; callers never pass an out-of-range flash index, and an
out-of-range index is modelled as matching nothing. -/
def get_active_client_connection_index_from_flash_client_index
    (conns : List server_uart_connection_t) (clients : List client_t) (i : Nat) : Nat :=
  match clients[i]? with
  | none => INVALID_CLIENT_INDEX_U32
  | some cl =>
    match conns.findIdx? (fun c => c.pin_pair.tx == cl.uart_connection.pin_pair.tx) with
    | some j => j
    | none => INVALID_CLIENT_INDEX_U32

/-- Reading the is_dormant flag of the active-connection table at an
index.  In C an out-of-range index reads past the array (undefined
behavior, see C6); the model returns false there. -/
def dormant_at (conns : List server_uart_connection_t) (j : Nat) : Bool :=
  (conns[j]?.map (fun c => c.is_dormant)).getD false

/-- The pin pair of the active-connection table at an index (total model
of active_uart_server_connections[j].pin_pair). -/
def conn_pin_pair (conns : List server_uart_connection_t) (j : Nat) : uart_pin_pair_t :=
  (conns[j]?.map (fun c => c.pin_pair)).getD ⟨0, 0⟩

/-- send_wakeup_if_dormant (client_communication.c): the looked-up index
is stored into a uint8_t local, truncating modulo 256, and the dormant
flag at that index decides whether the wake pulse is sent. -/
def send_wakeup_if_dormant (conns : List server_uart_connection_t)
    (clients : List client_t) (i : Nat) (pp : uart_pin_pair_t) : List TxEvent :=
  let idx8 :=
    (get_active_client_connection_index_from_flash_client_index conns clients i) % 256
  if dormant_at conns idx8 then wake_up_client pp else []

/-- server_send_device_state (state_apply.c): wake if dormant, then send
the single device message. -/
def server_send_device_state (conns : List server_uart_connection_t)
    (clients : List client_t) (i : Nat) (pp : uart_pin_pair_t)
    (gpio_number : Nat) (is_on : Bool) : List TxEvent :=
  send_wakeup_if_dormant conns clients i pp ++
  [TxEvent.uartMsg gpio_number (if is_on then 1 else 0)]

/-- server_send_client_state (client_communication.c): an unconditional
wake_up_client, then one message per device slot. -/
def server_send_client_state (pp : uart_pin_pair_t) (cs : client_state_t) : List TxEvent :=
  wake_up_client pp ++
  cs.devices.map (fun d => TxEvent.uartMsg d.gpio_number (if d.is_on then 1 else 0))

/-- send_dormant_flag_to_client (client_communication.c): one dormant-flag
message, no wake pulse. -/
def send_dormant_flag_to_client (conns : List server_uart_connection_t) (j : Nat) :
    List TxEvent :=
  [TxEvent.uartMsg DORMANT_FLAG_NUMBER DORMANT_FLAG_NUMBER]

/-- send_dormant_if_is_dormant_is_true (client_communication.c). -/
def send_dormant_if_is_dormant_is_true (conns : List server_uart_connection_t) (j : Nat) :
    List TxEvent :=
  if dormant_at conns j then send_dormant_flag_to_client conns j else []

/-- send_flag_message_to_client (client_communication.c): the flag pair,
then a dormant-flag resend when the client is marked dormant. -/
def send_flag_message_to_client (conns : List server_uart_connection_t)
    (flag j : Nat) : List TxEvent :=
  [TxEvent.uartMsg flag flag] ++ send_dormant_if_is_dormant_is_true conns j

/-- send_flag_message_to_all_clients (client_communication.c): per active
connection, a wake pulse when it is marked dormant, then the flag
message. -/
def send_flag_message_to_all_clients (conns : List server_uart_connection_t)
    (flag : Nat) : List TxEvent :=
  ((List.range conns.length).map (fun j =>
    (if dormant_at conns j then wake_up_client (conn_pin_pair conns j) else []) ++
    send_flag_message_to_client conns flag j)).flatten

/-- The combined mutable server state: the flash sector image and the
active-connection table. -/
structure ServerState where
  flash : server_persistent_state_t
  conns : List server_uart_connection_t

/-- server_set_device_state_and_update_flash (state_apply.c): send the
device message (with dormant-aware wakeup), flip the is_on flag of the
slot recovered from the GPIO number, and commit; the dormant flags are
not touched. -/
def server_set_device_state_and_update_flash (st : ServerState) (pp : uart_pin_pair_t)
    (gpio_index : Nat) (device_state : Bool) (i : Nat) : ServerState × List TxEvent :=
  let tr := server_send_device_state st.conns st.flash.clients i pp gpio_index device_state
  let clients1 := listModify (fun c =>
    { c with running_client_state :=
        ⟨listModify (fun d => { d with is_on := device_state })
          (recover_gpio_index gpio_index) c.running_client_state.devices⟩ }) i st.flash.clients
  (⟨save_server_state { st.flash with clients := clients1 }, st.conns⟩, tr)

/-- load_configuration_into_running_state (state_apply.c): copy the preset
over the running state, push the whole state to the client, commit, then
set the dormant flag of the matched active connection (through a uint8_t
truncated index) to whether no device of the new running state is on,
sending the dormant flag message in the dormant case.  Callers pass a
preset index below NUMBER_OF_POSSIBLE_PRESETS; an out-of-range index is
undefined behavior in C and leaves the running state here. -/
def load_configuration_into_running_state (st : ServerState) (cfg i : Nat) :
    ServerState × List TxEvent :=
  let clients1 := listModify (fun c =>
    { c with running_client_state := c.preset_configs[cfg]?.getD c.running_client_state })
    i st.flash.clients
  let cl := clients1[i]?.getD dummy_client
  let tr := server_send_client_state cl.uart_connection.pin_pair cl.running_client_state
  let j8 :=
    (get_active_client_connection_index_from_flash_client_index st.conns clients1 i) % 256
  if !(client_has_active_devices cl) then
    (⟨save_server_state { st.flash with clients := clients1 },
      listModify (fun c => { c with is_dormant := true }) j8 st.conns⟩,
      tr ++ send_dormant_flag_to_client st.conns j8)
  else
    (⟨save_server_state { st.flash with clients := clients1 },
      listModify (fun c => { c with is_dormant := false }) j8 st.conns⟩,
      tr)

/-- reset_running_configuration (state_apply.c): reset the running state,
push it to the client, send the dormant flag message, mark the matched
active connection dormant, commit. -/
def reset_running_configuration (st : ServerState) (i : Nat) :
    ServerState × List TxEvent :=
  let clients1 := listModify (fun c =>
    { c with running_client_state := server_reset_configuration c.running_client_state })
    i st.flash.clients
  let cl := clients1[i]?.getD dummy_client
  let tr := server_send_client_state cl.uart_connection.pin_pair cl.running_client_state
  let j8 :=
    (get_active_client_connection_index_from_flash_client_index st.conns clients1 i) % 256
  (⟨save_server_state { st.flash with clients := clients1 },
    listModify (fun c => { c with is_dormant := true }) j8 st.conns⟩,
    tr ++ send_dormant_flag_to_client st.conns j8)

/-- reset_preset_configuration (state_apply.c): reset the preset at the
1-based index and commit; connections and dormant flags untouched. -/
def reset_preset_configuration (st : ServerState) (i cfg : Nat) :
    ServerState × List TxEvent :=
  let clients1 := listModify (fun c =>
    { c with preset_configs := listModify server_reset_configuration (cfg - 1) c.preset_configs })
    i st.flash.clients
  (⟨save_server_state { st.flash with clients := clients1 }, st.conns⟩, [])

/-- reset_all_client_data (state_apply.c): like reset_running_configuration
and additionally every preset is reset before the commit. -/
def reset_all_client_data (st : ServerState) (i : Nat) : ServerState × List TxEvent :=
  let clients1 := listModify (fun c =>
    { c with running_client_state := server_reset_configuration c.running_client_state })
    i st.flash.clients
  let cl := clients1[i]?.getD dummy_client
  let tr := server_send_client_state cl.uart_connection.pin_pair cl.running_client_state
  let j8 :=
    (get_active_client_connection_index_from_flash_client_index st.conns clients1 i) % 256
  let clients2 := listModify (fun c =>
    { c with preset_configs := c.preset_configs.map server_reset_configuration }) i clients1
  (⟨save_server_state { st.flash with clients := clients2 },
    listModify (fun c => { c with is_dormant := true }) j8 st.conns⟩,
    tr ++ send_dormant_flag_to_client st.conns j8)

/-- set_dormant_flag_to_standby_clients (state_handling.c): for every
active connection, every flash record with the same TX pin overwrites
the dormant flag with whether that record has no active device (the
inner loop has no break, so the last matching record wins). -/
def set_dormant_flag_to_standby_clients (conns : List server_uart_connection_t)
    (clients : List client_t) : List server_uart_connection_t :=
  conns.map (fun c =>
    clients.foldl (fun acc cl =>
      if cl.uart_connection.pin_pair.tx == c.pin_pair.tx then
        { acc with is_dormant := !(client_has_active_devices cl) }
      else acc) c)

/-- Demo fixtures used by witnesses. -/
def demo_connection : server_uart_connection_t := ⟨⟨0, 1⟩, 0, ⟨1, 0⟩, true⟩

def demo_clients : List client_t :=
  candidate_connections.map (fun cand =>
    ⟨⟨default_devices⟩, List.replicate NUMBER_OF_POSSIBLE_PRESETS ⟨default_devices⟩,
      ⟨cand.1, cand.2⟩, false⟩)

def demo_flash : server_persistent_state_t := ⟨demo_clients, 0⟩

/-!  Dormant-flag lemmas (claim C4).  -/

def demo_server_state : ServerState := ⟨demo_flash, [demo_connection]⟩

/-!  Wake-pulse observations (claim C5).  -/

def is_wake_pulse_event : TxEvent → Bool
  | TxEvent.wakePulse _ => true
  | _ => false

/-- Whether a transmission trace contains a wake pulse. -/
def has_wake_pulse (tr : List TxEvent) : Bool := tr.any is_wake_pulse_event

/-- An active connection marked awake returned by the handshake on the
pair (0, 1). -/
def demo_connection_awake : server_uart_connection_t := ⟨⟨0, 1⟩, 0, ⟨1, 0⟩, false⟩

/-!  Client-side handshake: src/src/client/client_side_handshake.c.  The
UART input is abstracted as an oracle giving, per candidate pair, the
buffer that get_uart_buffer returns for the echo read (an empty string
when the read times out).  -/

/-- Literal from config.h. -/
def CONNECTION_REQUEST_MESSAGE : String := "Requesting Connection"

/-- Literal from config.h. -/
def CONNECTION_ACCEPTED_MESSAGE : String := "Connection Accepted"

/-- The acknowledgement text built by client_uart_read. -/
def accept_message : String := "[" ++ CONNECTION_ACCEPTED_MESSAGE ++ "]"

/-- The request text built by client_test_uart_pair. -/
def client_request_message (pp : uart_pin_pair_t) : String :=
  CONNECTION_REQUEST_MESSAGE ++ "-[" ++ toString pp.tx ++ "," ++ toString pp.rx ++ "]"

/-- Outcome of one client_uart_read call: whether the echo was accepted,
and what the client transmitted in reply. -/
structure client_read_result where
  accepted : Bool
  sent : List String
  deriving DecidableEq, Repr

/-- client_uart_read (client_side_handshake.c): decode the echoed buffer
with get_number_pair and accept exactly when the decoded pair equals the
candidate pair, replying with the bracketed accept literal. -/
def client_uart_read (buf : String) (pp : uart_pin_pair_t) : client_read_result :=
  let pair := get_number_pair buf
  if pair.1 = pp.tx ∧ pair.2 = pp.rx then ⟨true, [accept_message]⟩ else ⟨false, []⟩

/-- client_test_uart_pair (client_side_handshake.c): send the request and
read the echo; the handshake on this candidate succeeds exactly when
client_uart_read accepts. -/
def client_test_uart_pair (echo : uart_pin_pair_t → String) (pp : uart_pin_pair_t) : Bool :=
  (client_uart_read (echo pp) pp).accepted

/-- Outcome of scanning a candidate list: the connection recorded in
active_uart_client_connection (when some candidate succeeded) and the
candidates whose pins were released with reset_gpio_pins, in order. -/
structure scan_result where
  connection : Option uart_connection_t
  released : List uart_pin_pair_t
  deriving DecidableEq, Repr

/-- The loop of client_find_connection_for_uart0_instance and of
client_find_connection_for_uart1_instance: try candidates in list order,
record the first that succeeds, release the pins of every failed one. -/
def client_scan_pairs (echo : uart_pin_pair_t → String) (inst : Nat) :
    List uart_pin_pair_t → scan_result
  | [] => ⟨none, []⟩
  | p :: rest =>
    if client_test_uart_pair echo p then ⟨some ⟨p, inst⟩, []⟩
    else
      let r := client_scan_pairs echo inst rest
      ⟨r.connection, p :: r.released⟩

/-- client_find_connection_for_uart0_instance (client_side_handshake.c). -/
def client_find_connection_for_uart0_instance (echo : uart_pin_pair_t → String) :
    scan_result :=
  client_scan_pairs echo uart0 pin_pairs_uart0

/-- client_find_connection_for_uart1_instance (client_side_handshake.c). -/
def client_find_connection_for_uart1_instance (echo : uart_pin_pair_t → String) :
    scan_result :=
  client_scan_pairs echo uart1 pin_pairs_uart1

/-- Echo oracle used by the C8 witness: the server echoes correctly on the
pair (12, 13) and garbage elsewhere. -/
def demo_echo : uart_pin_pair_t → String :=
  fun pp => if pp = ⟨12, 13⟩ then "[12,13]" else "[0,0]"

/-!  Theorems: codec, dispatcher, persistence, invariants, registry and handshake claims with their supporting lemmas.  -/

/-!  Helper lemmas about the codec loop.  -/

/-- A digit character (code between 48 and 57) performs exactly one store:
the current cell is multiplied by 10, the digit added, reduced mod 256;
the cell index does not move. -/
theorem codecStep_digit (st : CodecState) (c : Char) (h1 : 48 ≤ c.toNat) (h2 : c.toNat ≤ 57) :
    codecStep st c =
      { st with
        cells := updateCell st.cells st.idx ((st.cells st.idx * 10 + (c.toNat - 48)) % 256),
        writes := st.writes ++ [st.idx] } := by
  unfold codecStep
  rw [if_pos]
  constructor <;> omega

/-- A comma advances the cell index and stores nothing. -/
theorem codecStep_comma (st : CodecState) :
    codecStep st ',' = { st with idx := st.idx + 1 } := by
  unfold codecStep
  rw [if_neg, if_pos rfl]
  simp [Char.toNat]

/-- Any other character is skipped. -/
theorem codecStep_other (st : CodecState) (c : Char)
    (h1 : ¬ (48 ≤ c.toNat ∧ c.toNat ≤ 57)) (h2 : c ≠ ',') :
    codecStep st c = st := by
  unfold codecStep
  rw [if_neg, if_neg h2]
  intro h
  exact h1 ⟨by omega, by omega⟩

/-- The comma character is not a digit. -/
theorem comma_not_digit : ¬ (48 ≤ ','.toNat ∧ ','.toNat ≤ 57) := by decide

/-- After scanning a character list the cell index has grown by exactly the
number of commas in it. -/
theorem codec_idx_foldl (l : List Char) (st : CodecState) :
    ((l.foldl codecStep st).idx) = st.idx + (l.filter (fun c => c = ',')).length := by
  induction l generalizing st with
  | nil => simp
  | cons c rest ih =>
    simp only [List.foldl_cons, List.filter_cons]
    by_cases hd : 48 ≤ c.toNat ∧ c.toNat ≤ 57
    · have hnc : ¬ (c = ',') := by
        intro h; subst h; exact comma_not_digit hd
      rw [codecStep_digit st c hd.1 hd.2, ih]
      simp [hnc]
    · by_cases hc : c = ','
      · subst hc
        rw [codecStep_comma st, ih]
        simp
        omega
      · rw [codecStep_other st c hd hc, ih]
        simp [hc]

/-- Every store performed while scanning a character list either predates
the scan or targets a cell index between the starting index and the
starting index plus the number of commas in the list. -/
theorem codec_writes_foldl (l : List Char) (st : CodecState) :
    ∀ w ∈ (l.foldl codecStep st).writes,
      w ∈ st.writes ∨ (st.idx ≤ w ∧ w ≤ st.idx + (l.filter (fun c => c = ',')).length) := by
  induction l generalizing st with
  | nil => intro w hw; simp at hw ⊢; left; exact hw
  | cons c rest ih =>
    intro w hw
    simp only [List.foldl_cons] at hw
    by_cases hd : 48 ≤ c.toNat ∧ c.toNat ≤ 57
    · have hnc : ¬ (c = ',') := by
        intro h; subst h; exact comma_not_digit hd
      rw [codecStep_digit st c hd.1 hd.2] at hw
      rcases ih _ w hw with h | h
      · rcases List.mem_append.1 h with h | h
        · left; exact h
        · right; simp at h; subst h
          simp [List.filter_cons, hnc]
      · right
        simp only [List.filter_cons, hnc, if_neg] at h ⊢
        simp at h ⊢
        omega
    · by_cases hc : c = ','
      · subst hc
        rw [codecStep_comma st] at hw
        rcases ih _ w hw with h | h
        · left; exact h
        · right
          simp [List.filter_cons] at h ⊢
          omega
      · rw [codecStep_other st c hd hc] at hw
        rcases ih _ w hw with h | h
        · left; exact h
        · right; simp [List.filter_cons, hc] at h ⊢; omega

/-- C7: get_number_pair accumulates each digit character into the current
8-bit field as field = field * 10 + digit reduced modulo 256, a comma
advances accumulation to the second field, decoding "[7,1]" yields (7,1),
decoding "[123,45]" yields (123,45), and a digit run of value 300 decodes
to 300 mod 256 = 44 rather than failing. -/
theorem claim_C7_codec_accumulation :
    (∀ (st : CodecState) (c : Char), 48 ≤ c.toNat → c.toNat ≤ 57 →
      codecStep st c =
        { st with
          cells := updateCell st.cells st.idx ((st.cells st.idx * 10 + (c.toNat - 48)) % 256),
          writes := st.writes ++ [st.idx] }) ∧
    (∀ st : CodecState, codecStep st ',' = { st with idx := st.idx + 1 }) ∧
    get_number_pair "[7,1]" = (7, 1) ∧
    get_number_pair "[123,45]" = (123, 45) ∧
    get_number_pair "[300,1]" = (44, 1) :=
  ⟨codecStep_digit, codecStep_comma, by decide, by decide, by decide⟩

/-- Witness for C7: the digit-accumulation clause applied to the initial
state and the concrete digit character 5. -/
theorem claim_C7_codec_accumulation_witness :
    (48 ≤ '5'.toNat ∧ '5'.toNat ≤ 57) ∧
    codecStep codecInit '5' =
      { codecInit with
        cells := updateCell codecInit.cells codecInit.idx
          ((codecInit.cells codecInit.idx * 10 + ('5'.toNat - 48)) % 256),
        writes := codecInit.writes ++ [codecInit.idx] } :=
  ⟨⟨by decide, by decide⟩,
    claim_C7_codec_accumulation.1 codecInit '5' (by decide) (by decide)⟩

/-- C9: on every buffer with at most one comma, every store performed by
get_number_pair targets index 0 or index 1 of the output array; the
bound does not come from any check in the code, so with two commas a
store at index 2 does occur (out of bounds for the 2-cell C array). -/
theorem claim_C9_codec_write_bounds (buf : String) (h : commaCount buf ≤ 1) :
    (∀ w ∈ get_number_pair_writes buf, w < 2) ∧
    2 ∈ get_number_pair_writes "[1,2,3]" := by
  refine ⟨?_, by decide⟩
  intro w hw
  have hb := codec_writes_foldl buf.data codecInit w hw
  rcases hb with hmem | hrange
  · simp [codecInit] at hmem
  · have hcnt : (buf.data.filter (fun c => c = ',')).length ≤ 1 := h
    have hidx : codecInit.idx = 0 := rfl
    omega

/-- Witness for C9 at the buffer with one comma. -/
theorem claim_C9_codec_write_bounds_witness :
    commaCount "[7,1]" ≤ 1 ∧
    ((∀ w ∈ get_number_pair_writes "[7,1]", w < 2) ∧
      2 ∈ get_number_pair_writes "[1,2,3]") :=
  ⟨by decide, claim_C9_codec_write_bounds "[7,1]" (by decide)⟩

/-- Counterexample for C1: the command byte 100 is not one of the four
reserved sentinels and lies outside the platform pin-id range, yet
apply_command does not drop it: the default branch of the switch hands it
to change_gpio, which initializes and drives pin 100. -/
theorem claim_C1_counterexample :
    isReservedSentinel 100 = false ∧ ¬ (100 < NUM_BANK0_GPIOS) ∧
    apply_command (100, 1) ≠ [] := by decide

/-- C1 amended: for every received pair whose first byte is none of the
four reserved sentinels, apply_command delegates unconditionally to
change_gpio (performing GPIO actions on that pin, with no range check and
no silent drop). -/
theorem claim_C1_default_dispatch (a b : Nat)
    (h77 : a ≠ TRIGGER_RESET_FLAG_NUMBER) (h66 : a ≠ BLINK_ONBOARD_LED_FLAG_NUMBER)
    (h55 : a ≠ WAKE_UP_FLAG_NUMBER) (h44 : a ≠ DORMANT_FLAG_NUMBER) :
    apply_command (a, b) = change_gpio (a, b) ∧ change_gpio (a, b) ≠ [] := by
  constructor
  · unfold apply_command
    rw [if_neg h77, if_neg h66, if_neg h55, if_neg h44]
  · unfold change_gpio
    split <;> simp

/-- Witness for the amended C1 at the concrete pair (100, 1). -/
theorem claim_C1_default_dispatch_witness :
    (100 ≠ TRIGGER_RESET_FLAG_NUMBER ∧ 100 ≠ BLINK_ONBOARD_LED_FLAG_NUMBER ∧
      100 ≠ WAKE_UP_FLAG_NUMBER ∧ 100 ≠ DORMANT_FLAG_NUMBER) ∧
    (apply_command (100, 1) = change_gpio (100, 1) ∧ change_gpio (100, 1) ≠ []) :=
  ⟨⟨by decide, by decide, by decide, by decide⟩,
    claim_C1_default_dispatch 100 1 (by decide) (by decide) (by decide) (by decide)⟩

/-- C10: for every device slot index below 26, the dispatcher slot-recovery
map inverts the default GPIO assignment, the assigned number is never 23,
24 or 25 (it lies in 0..22 or 26..28), and the assignment is injective. -/
theorem claim_C10_slot_recovery (i j : Nat)
    (hi : i < MAX_NUMBER_OF_GPIOS) (hj : j < MAX_NUMBER_OF_GPIOS) :
    recover_gpio_index (default_gpio_number i) = i ∧
    default_gpio_number i ≠ 23 ∧ default_gpio_number i ≠ 24 ∧ default_gpio_number i ≠ 25 ∧
    (default_gpio_number i ≤ 22 ∨ (26 ≤ default_gpio_number i ∧ default_gpio_number i ≤ 28)) ∧
    (default_gpio_number i = default_gpio_number j → i = j) := by
  have hi26 : i < 26 := hi
  have hj26 : j < 26 := hj
  simp only [default_gpio_number, recover_gpio_index]
  split_ifs <;> constructor <;> try omega

/-- Witness for C10 at the slot indices 24 and 7. -/
theorem claim_C10_slot_recovery_witness :
    (24 < MAX_NUMBER_OF_GPIOS ∧ 7 < MAX_NUMBER_OF_GPIOS) ∧
    (recover_gpio_index (default_gpio_number 24) = 24 ∧
      default_gpio_number 24 ≠ 23 ∧ default_gpio_number 24 ≠ 24 ∧ default_gpio_number 24 ≠ 25 ∧
      (default_gpio_number 24 ≤ 22 ∨ (26 ≤ default_gpio_number 24 ∧ default_gpio_number 24 ≤ 28)) ∧
      (default_gpio_number 24 = default_gpio_number 7 → 24 = 7)) :=
  ⟨⟨by decide, by decide⟩, claim_C10_slot_recovery 24 7 (by decide) (by decide)⟩

/-- C2: committing any persistent state S with save_server_state and
reading it back with load_server_state yields a structure equal to S in
every field except the crc field, and load_server_state validates it
(the recomputed CRC32 over the structure with crc zeroed equals the
stored crc). -/
theorem claim_C2_save_load_roundtrip (s : server_persistent_state_t) :
    (load_server_state (save_server_state s)).1 = true ∧
    (load_server_state (save_server_state s)).2.clients = s.clients ∧
    (load_server_state (save_server_state s)).2.crc =
      compute_crc32 (stateBytes { s with crc := 0 }) := by
  cases s with
  | mk clients crc => simp [load_server_state, save_server_state]

/-!  List helper lemmas.  -/

theorem listModify_length {α : Type} (f : α → α) (i : Nat) (l : List α) :
    (listModify f i l).length = l.length := by
  induction l generalizing i with
  | nil => cases i <;> rfl
  | cons a as ih =>
    cases i with
    | zero => rfl
    | succ n => simp [listModify, ih]

theorem listModify_getElem? {α : Type} (f : α → α) (i : Nat) (l : List α) (j : Nat) :
    (listModify f i l)[j]? = if j = i then l[j]?.map f else l[j]? := by
  induction l generalizing i j with
  | nil => cases i <;> simp [listModify]
  | cons a as ih =>
    cases i with
    | zero =>
      cases j with
      | zero => simp [listModify]
      | succ m => simp [listModify]
    | succ n =>
      cases j with
      | zero => simp [listModify]
      | succ m => simpa [listModify] using ih n m

theorem mem_listModify {α : Type} (f : α → α) (i : Nat) (l : List α) :
    ∀ a ∈ listModify f i l, a ∈ l ∨ ∃ b ∈ l, a = f b := by
  induction l generalizing i with
  | nil => intro a ha; cases i <;> simp [listModify] at ha
  | cons x xs ih =>
    intro a ha
    cases i with
    | zero =>
      rcases List.mem_cons.1 ha with h | h
      · right; exact ⟨x, List.mem_cons_self x xs, h⟩
      · left; exact List.mem_cons_of_mem x h
    | succ n =>
      rcases List.mem_cons.1 ha with h | h
      · left; exact h ▸ List.mem_cons_self x xs
      · rcases ih n a h with h2 | ⟨b, hb, rfl⟩
        · left; exact List.mem_cons_of_mem x h2
        · right; exact ⟨b, List.mem_cons_of_mem x hb, rfl⟩

theorem mem_zipWith {α β γ : Type} (f : α → β → γ) :
    ∀ (l1 : List α) (l2 : List β), ∀ c ∈ List.zipWith f l1 l2,
      ∃ a ∈ l1, ∃ b ∈ l2, c = f a b := by
  intro l1
  induction l1 with
  | nil => intro l2 c hc; simp at hc
  | cons x xs ih =>
    intro l2 c hc
    cases l2 with
    | nil => simp at hc
    | cons y ys =>
      rcases List.mem_cons.1 hc with h | h
      · exact ⟨x, List.mem_cons_self x xs, y, List.mem_cons_self y ys, h⟩
      · obtain ⟨a, ha, b, hb, rfl⟩ := ih ys c h
        exact ⟨a, List.mem_cons_of_mem x ha, b, List.mem_cons_of_mem y hb, rfl⟩

/-- Committing changes only the crc field. -/
theorem save_server_state_clients (s : server_persistent_state_t) :
    (save_server_state s).clients = s.clients := rfl

/-!  Reserved-slot lemmas (claim C3).  -/

theorem default_devices_length : default_devices.length = MAX_NUMBER_OF_GPIOS := by
  simp [default_devices]

theorem default_devices_off : ∀ d ∈ default_devices, d.is_on = false := by
  intro d hd
  simp only [default_devices, List.mem_map] at hd
  obtain ⟨i, _, rfl⟩ := hd
  rfl

theorem mark_uart_pin_length (cs : client_state_t) (k : Nat) :
    (mark_uart_pin cs k).devices.length = cs.devices.length :=
  listModify_length _ k cs.devices

theorem mark_uart_pin_off (cs : client_state_t) (k : Nat)
    (h : ∀ d ∈ cs.devices, d.is_on = false) :
    ∀ d ∈ (mark_uart_pin cs k).devices, d.is_on = false := by
  intro d hd
  rcases mem_listModify _ k cs.devices d hd with h1 | ⟨b, hb, rfl⟩
  · exact h d h1
  · simpa using h b hb

theorem slot_reserved_mark_self (cs : client_state_t) (k : Nat)
    (hk : k < cs.devices.length) (hoff : ∀ d ∈ cs.devices, d.is_on = false) :
    slot_reserved (mark_uart_pin cs k) k = true := by
  unfold slot_reserved mark_uart_pin
  rw [show (⟨listModify (fun d => { d with gpio_number := UART_CONNECTION_FLAG_NUMBER }) k cs.devices⟩ : client_state_t).devices = listModify (fun d => { d with gpio_number := UART_CONNECTION_FLAG_NUMBER }) k cs.devices from rfl]
  rw [listModify_getElem?, if_pos rfl, List.getElem?_eq_getElem hk]
  have hoffk : (cs.devices[k]).is_on = false := hoff _ (cs.devices.getElem_mem hk)
  simp [hoffk]

theorem slot_reserved_mark (cs : client_state_t) (k k' : Nat)
    (h : slot_reserved cs k' = true) :
    slot_reserved (mark_uart_pin cs k) k' = true := by
  unfold slot_reserved at h ⊢
  unfold mark_uart_pin
  rw [show (⟨listModify (fun d => { d with gpio_number := UART_CONNECTION_FLAG_NUMBER }) k cs.devices⟩ : client_state_t).devices = listModify (fun d => { d with gpio_number := UART_CONNECTION_FLAG_NUMBER }) k cs.devices from rfl]
  rw [listModify_getElem?]
  by_cases hek : k' = k
  · subst hek
    rw [if_pos rfl]
    cases hcs : cs.devices[k']? with
    | none => rw [hcs] at h; simp at h
    | some d =>
      rw [hcs] at h
      simp at h ⊢
      exact h.2
  · rw [if_neg hek]
    exact h

theorem reserved_slots_off_of_all_off (cs : client_state_t)
    (h : ∀ d ∈ cs.devices, d.is_on = false) : reserved_slots_off cs = true := by
  unfold reserved_slots_off
  rw [List.all_eq_true]
  intro d hd
  simp [h d hd]

theorem configured_state_off (conns : List server_uart_connection_t) (tx : Nat) :
    ∀ d ∈ (configure_state_uart_connection_pins conns tx ⟨default_devices⟩).devices,
      d.is_on = false := by
  unfold configure_state_uart_connection_pins
  cases hfind : find_matching_connection conns tx with
  | none => exact default_devices_off
  | some conn =>
    exact mark_uart_pin_off _ _ (mark_uart_pin_off _ _ default_devices_off)

theorem configured_state_reserved (conns : List server_uart_connection_t) (tx : Nat)
    (conn : server_uart_connection_t)
    (hfind : find_matching_connection conns tx = some conn)
    (htx : conn.uart_pin_pair_from_client_to_server.tx < MAX_NUMBER_OF_GPIOS)
    (hrx : conn.uart_pin_pair_from_client_to_server.rx < MAX_NUMBER_OF_GPIOS) :
    slot_reserved (configure_state_uart_connection_pins conns tx ⟨default_devices⟩)
      conn.uart_pin_pair_from_client_to_server.tx = true ∧
    slot_reserved (configure_state_uart_connection_pins conns tx ⟨default_devices⟩)
      conn.uart_pin_pair_from_client_to_server.rx = true := by
  unfold configure_state_uart_connection_pins
  rw [hfind]
  have hlen1 : (mark_uart_pin ⟨default_devices⟩ conn.uart_pin_pair_from_client_to_server.tx).devices.length = MAX_NUMBER_OF_GPIOS := by
    rw [mark_uart_pin_length]
    exact default_devices_length
  have hoff1 : ∀ d ∈ (mark_uart_pin ⟨default_devices⟩ conn.uart_pin_pair_from_client_to_server.tx).devices, d.is_on = false :=
    mark_uart_pin_off _ _ default_devices_off
  constructor
  · exact slot_reserved_mark _ _ _
      (slot_reserved_mark_self ⟨default_devices⟩ _ (by rw [show (⟨default_devices⟩ : client_state_t).devices = default_devices from rfl, default_devices_length]; exact htx) default_devices_off)
  · exact slot_reserved_mark_self _ _ (by rw [hlen1]; exact hrx) hoff1

theorem configure_client_ok (conns : List server_uart_connection_t)
    (pp : uart_pin_pair_t) (inst : Nat) (old : client_t)
    (hpins : ∀ conn ∈ conns,
      conn.uart_pin_pair_from_client_to_server.tx < MAX_NUMBER_OF_GPIOS ∧
      conn.uart_pin_pair_from_client_to_server.rx < MAX_NUMBER_OF_GPIOS) :
    client_reserved_ok conns (configure_client conns pp inst old) = true := by
  have hrun_off := configured_state_off conns pp.tx
  have hoff : reserved_slots_off (configure_state_uart_connection_pins conns pp.tx ⟨default_devices⟩) = true :=
    reserved_slots_off_of_all_off _ hrun_off
  have hpreset : ∀ p ∈ configure_preset_configs conns pp.tx,
      p = configure_state_uart_connection_pins conns pp.tx ⟨default_devices⟩ := by
    intro p hp
    simp only [configure_preset_configs, List.mem_map] at hp
    obtain ⟨_, _, rfl⟩ := hp
    rfl
  unfold client_reserved_ok configure_client
  simp only [Bool.and_eq_true]
  refine ⟨⟨?_, ?_⟩, ?_⟩
  · show (match find_matching_connection conns pp.tx with
      | some conn =>
          slot_reserved (configure_running_state conns pp.tx) conn.uart_pin_pair_from_client_to_server.tx &&
          slot_reserved (configure_running_state conns pp.tx) conn.uart_pin_pair_from_client_to_server.rx &&
          (configure_preset_configs conns pp.tx).all (fun p =>
            slot_reserved p conn.uart_pin_pair_from_client_to_server.tx &&
            slot_reserved p conn.uart_pin_pair_from_client_to_server.rx)
      | none => true) = true
    cases hfind : find_matching_connection conns pp.tx with
    | none => rfl
    | some conn =>
      have hmem : conn ∈ conns := List.mem_of_find?_eq_some hfind
      have hres := configured_state_reserved conns pp.tx conn hfind (hpins conn hmem).1 (hpins conn hmem).2
      simp only [Bool.and_eq_true]
      refine ⟨⟨hres.1, hres.2⟩, ?_⟩
      rw [List.all_eq_true]
      intro p hp
      rw [hpreset p hp]
      simp only [Bool.and_eq_true]
      exact ⟨hres.1, hres.2⟩
  · exact hoff
  · rw [List.all_eq_true]
    intro p hp
    rw [hpreset p hp]
    exact hoff

theorem slot_reserved_reset (cs : client_state_t) (k : Nat)
    (h : slot_reserved cs k = true) :
    slot_reserved (server_reset_configuration cs) k = true := by
  unfold slot_reserved at h ⊢
  unfold server_reset_configuration
  rw [show (⟨cs.devices.map (fun d => if d.gpio_number ≠ UART_CONNECTION_FLAG_NUMBER then { d with is_on := false } else d)⟩ : client_state_t).devices = cs.devices.map (fun d => if d.gpio_number ≠ UART_CONNECTION_FLAG_NUMBER then { d with is_on := false } else d) from rfl]
  rw [List.getElem?_map]
  cases hcs : cs.devices[k]? with
  | none => rw [hcs] at h; simp at h
  | some d =>
    rw [hcs] at h
    have h1 : d.gpio_number = UART_CONNECTION_FLAG_NUMBER ∧ d.is_on = false := by
      simpa using h
    simp [h1.1, h1.2]

theorem reserved_slots_off_reset (cs : client_state_t)
    (h : reserved_slots_off cs = true) :
    reserved_slots_off (server_reset_configuration cs) = true := by
  unfold reserved_slots_off at h ⊢
  unfold server_reset_configuration
  rw [List.all_eq_true] at h ⊢
  intro d hd
  rw [show (⟨cs.devices.map (fun d => if d.gpio_number ≠ UART_CONNECTION_FLAG_NUMBER then { d with is_on := false } else d)⟩ : client_state_t).devices = cs.devices.map (fun d => if d.gpio_number ≠ UART_CONNECTION_FLAG_NUMBER then { d with is_on := false } else d) from rfl] at hd
  rw [List.mem_map] at hd
  obtain ⟨d0, hd0, rfl⟩ := hd
  by_cases hg : d0.gpio_number ≠ UART_CONNECTION_FLAG_NUMBER
  · rw [if_pos hg]
    simp [hg]
  · rw [if_neg hg]
    exact h d0 hd0

/-- The three flavors of per-client reset preserve the reserved-slot
property of a client record. -/
theorem client_reserved_ok_reset (conns : List server_uart_connection_t) (c : client_t)
    (h : client_reserved_ok conns c = true) (m : Nat) :
    client_reserved_ok conns
      { c with running_client_state := server_reset_configuration c.running_client_state } = true ∧
    client_reserved_ok conns
      { c with preset_configs := listModify server_reset_configuration m c.preset_configs } = true ∧
    client_reserved_ok conns
      { c with preset_configs := c.preset_configs.map server_reset_configuration } = true := by
  unfold client_reserved_ok at h ⊢
  simp only [Bool.and_eq_true] at h ⊢
  obtain ⟨⟨hmatch, hoffrun⟩, hoffpre⟩ := h
  rw [List.all_eq_true] at hoffpre
  have hpre_mod : ∀ p ∈ listModify server_reset_configuration m c.preset_configs,
      reserved_slots_off p = true := by
    intro p hp
    rcases mem_listModify _ m c.preset_configs p hp with h1 | ⟨b, hb, rfl⟩
    · exact hoffpre p h1
    · exact reserved_slots_off_reset b (hoffpre b hb)
  have hpre_map : ∀ p ∈ c.preset_configs.map server_reset_configuration,
      reserved_slots_off p = true := by
    intro p hp
    rw [List.mem_map] at hp
    obtain ⟨b, hb, rfl⟩ := hp
    exact reserved_slots_off_reset b (hoffpre b hb)
  refine ⟨⟨⟨?_, reserved_slots_off_reset _ hoffrun⟩, by rw [List.all_eq_true]; exact hoffpre⟩,
          ⟨⟨?_, hoffrun⟩, by rw [List.all_eq_true]; exact hpre_mod⟩,
          ⟨⟨?_, hoffrun⟩, by rw [List.all_eq_true]; exact hpre_map⟩⟩
  · cases hfind : find_matching_connection conns c.uart_connection.pin_pair.tx with
    | none => rfl
    | some conn =>
      rw [hfind] at hmatch
      simp only [Bool.and_eq_true] at hmatch ⊢
      refine ⟨⟨slot_reserved_reset _ _ hmatch.1.1, slot_reserved_reset _ _ hmatch.1.2⟩, hmatch.2⟩
  · cases hfind : find_matching_connection conns c.uart_connection.pin_pair.tx with
    | none => rfl
    | some conn =>
      rw [hfind] at hmatch
      simp only [Bool.and_eq_true] at hmatch ⊢
      refine ⟨hmatch.1, ?_⟩
      rw [List.all_eq_true] at hmatch ⊢
      intro p hp
      rcases mem_listModify _ m c.preset_configs p hp with h1 | ⟨b, hb, rfl⟩
      · exact hmatch.2 p h1
      · have hb2 := hmatch.2 b hb
        simp only [Bool.and_eq_true] at hb2 ⊢
        exact ⟨slot_reserved_reset _ _ hb2.1, slot_reserved_reset _ _ hb2.2⟩
  · cases hfind : find_matching_connection conns c.uart_connection.pin_pair.tx with
    | none => rfl
    | some conn =>
      rw [hfind] at hmatch
      simp only [Bool.and_eq_true] at hmatch ⊢
      refine ⟨hmatch.1, ?_⟩
      rw [List.all_eq_true] at hmatch ⊢
      intro p hp
      rw [List.mem_map] at hp
      obtain ⟨b, hb, rfl⟩ := hp
      have hb2 := hmatch.2 b hb
      simp only [Bool.and_eq_true] at hb2 ⊢
      exact ⟨slot_reserved_reset _ _ hb2.1, slot_reserved_reset _ _ hb2.2⟩

/-- When every reserved slot of the running state is off, the reserved
slots cannot influence the any-device-on evaluation. -/
theorem has_active_excludes_reserved (c : client_t)
    (h : reserved_slots_off c.running_client_state = true) :
    client_has_active_devices c = client_has_active_non_reserved_devices c := by
  unfold client_has_active_devices client_has_active_non_reserved_devices
  unfold reserved_slots_off at h
  rw [List.all_eq_true] at h
  rw [Bool.eq_iff_iff]
  simp only [List.any_eq_true]
  constructor
  · rintro ⟨d, hd, hon⟩
    refine ⟨d, hd, ?_⟩
    have hh := h d hd
    simp only [Bool.not_eq_eq_eq_not, Bool.not_true, Bool.and_eq_false_iff] at hh
    rcases hh with hg | hoff
    · have hne : d.gpio_number ≠ UART_CONNECTION_FLAG_NUMBER := by simpa using hg
      simp [hon, hne]
    · rw [hon] at hoff; simp at hoff
  · rintro ⟨d, hd, hon⟩
    rw [Bool.and_eq_true] at hon
    exact ⟨d, hd, hon.1⟩

/-- C3: after full default reinitialization every client record carries the
reserved sentinel (with the slot off) at both of its own link-pin slots,
in the running set and in every preset; each reset operation preserves
this; and for records whose reserved slots are off, the any-device-on
evaluation ignores the reserved slots (it agrees with the evaluation
restricted to non-reserved slots). -/
theorem claim_C3_reserved_pin_invariant (conns : List server_uart_connection_t)
    (s : server_persistent_state_t)
    (hpins : ∀ conn ∈ conns,
      conn.uart_pin_pair_from_client_to_server.tx < MAX_NUMBER_OF_GPIOS ∧
      conn.uart_pin_pair_from_client_to_server.rx < MAX_NUMBER_OF_GPIOS) :
    (∀ c ∈ (server_configure_persistent_state conns s).clients,
      client_reserved_ok conns c = true) ∧
    (∀ st : ServerState,
      (∀ c ∈ st.flash.clients, client_reserved_ok conns c = true) →
      ∀ i cfg,
        (∀ c ∈ ((reset_running_configuration st i).1).flash.clients,
          client_reserved_ok conns c = true) ∧
        (∀ c ∈ ((reset_preset_configuration st i cfg).1).flash.clients,
          client_reserved_ok conns c = true) ∧
        (∀ c ∈ ((reset_all_client_data st i).1).flash.clients,
          client_reserved_ok conns c = true)) ∧
    (∀ c : client_t, reserved_slots_off c.running_client_state = true →
      client_has_active_devices c = client_has_active_non_reserved_devices c) := by
  refine ⟨?_, ?_, has_active_excludes_reserved⟩
  · intro c hc
    rw [server_configure_persistent_state, save_server_state_clients] at hc
    obtain ⟨cand, _, old, _, rfl⟩ := mem_zipWith _ _ _ c hc
    exact configure_client_ok conns cand.1 cand.2 old hpins
  · intro st hok i cfg
    refine ⟨?_, ?_, ?_⟩ <;> intro c hc
    · simp only [reset_running_configuration] at hc
      rw [save_server_state_clients] at hc
      rcases mem_listModify _ i st.flash.clients c hc with h1 | ⟨b, hb, rfl⟩
      · exact hok c h1
      · exact (client_reserved_ok_reset conns b (hok b hb) 0).1
    · simp only [reset_preset_configuration] at hc
      rw [save_server_state_clients] at hc
      rcases mem_listModify _ i st.flash.clients c hc with h1 | ⟨b, hb, rfl⟩
      · exact hok c h1
      · exact (client_reserved_ok_reset conns b (hok b hb) (cfg - 1)).2.1
    · simp only [reset_all_client_data] at hc
      rw [save_server_state_clients] at hc
      rcases mem_listModify _ i _ c hc with h1 | ⟨b, hb, rfl⟩
      · rcases mem_listModify _ i st.flash.clients c h1 with h2 | ⟨b, hb, rfl⟩
        · exact hok c h2
        · exact (client_reserved_ok_reset conns b (hok b hb) 0).1
      · rcases mem_listModify _ i st.flash.clients b hb with h2 | ⟨b2, hb2, rfl⟩
        · exact (client_reserved_ok_reset conns b (hok b h2) 0).2.2
        · exact (client_reserved_ok_reset conns _
            ((client_reserved_ok_reset conns b2 (hok b2 hb2) 0).1) 0).2.2

/-- Witness for C3 at a one-connection registry and the demo flash state. -/
theorem claim_C3_reserved_pin_invariant_witness :
    (∀ conn ∈ [demo_connection],
      conn.uart_pin_pair_from_client_to_server.tx < MAX_NUMBER_OF_GPIOS ∧
      conn.uart_pin_pair_from_client_to_server.rx < MAX_NUMBER_OF_GPIOS) ∧
    ((∀ c ∈ (server_configure_persistent_state [demo_connection] demo_flash).clients,
      client_reserved_ok [demo_connection] c = true) ∧
    (∀ st : ServerState,
      (∀ c ∈ st.flash.clients, client_reserved_ok [demo_connection] c = true) →
      ∀ i cfg,
        (∀ c ∈ ((reset_running_configuration st i).1).flash.clients,
          client_reserved_ok [demo_connection] c = true) ∧
        (∀ c ∈ ((reset_preset_configuration st i cfg).1).flash.clients,
          client_reserved_ok [demo_connection] c = true) ∧
        (∀ c ∈ ((reset_all_client_data st i).1).flash.clients,
          client_reserved_ok [demo_connection] c = true)) ∧
    (∀ c : client_t, reserved_slots_off c.running_client_state = true →
      client_has_active_devices c = client_has_active_non_reserved_devices c)) :=
  ⟨by decide, claim_C3_reserved_pin_invariant [demo_connection] demo_flash (by decide)⟩

theorem listModify_getElem?_self {α : Type} (f : α → α) (i : Nat) (l : List α)
    (h : i < l.length) : (listModify f i l)[i]? = some (f l[i]) := by
  rw [listModify_getElem?, if_pos rfl, List.getElem?_eq_getElem h]
  rfl

/-- Replacing a client record by one with the same stored UART connection
does not change the reconciliation result. -/
theorem get_active_index_listModify (conns : List server_uart_connection_t)
    (clients : List client_t) (i : Nat) (F : client_t → client_t)
    (hF : ∀ c, (F c).uart_connection = c.uart_connection) :
    get_active_client_connection_index_from_flash_client_index conns (listModify F i clients) i =
    get_active_client_connection_index_from_flash_client_index conns clients i := by
  unfold get_active_client_connection_index_from_flash_client_index
  rw [listModify_getElem?, if_pos rfl]
  cases clients[i]? with
  | none => rfl
  | some cl =>
    simp only [Option.map_some']
    rw [hF cl]

/-- After server_reset_configuration on a state whose reserved slots were
off, every device is off. -/
theorem reset_all_off (cs : client_state_t) (h : reserved_slots_off cs = true) :
    ∀ d ∈ (server_reset_configuration cs).devices, d.is_on = false := by
  unfold reserved_slots_off at h
  rw [List.all_eq_true] at h
  intro d hd
  unfold server_reset_configuration at hd
  rw [show (⟨cs.devices.map (fun d => if d.gpio_number ≠ UART_CONNECTION_FLAG_NUMBER then { d with is_on := false } else d)⟩ : client_state_t).devices = cs.devices.map (fun d => if d.gpio_number ≠ UART_CONNECTION_FLAG_NUMBER then { d with is_on := false } else d) from rfl] at hd
  rw [List.mem_map] at hd
  obtain ⟨d0, hd0, rfl⟩ := hd
  by_cases hg : d0.gpio_number ≠ UART_CONNECTION_FLAG_NUMBER
  · rw [if_pos hg]
  · rw [if_neg hg]
    have := h d0 hd0
    push_neg at hg
    simp [hg] at this
    exact this

theorem any_eq_false_of_all_off (l : List device_t)
    (h : ∀ d ∈ l, d.is_on = false) : l.any (fun d => d.is_on) = false := by
  rw [List.any_eq_false]
  intro d hd
  simp [h d hd]

/-- Reading the dormant flag after marking index j. -/
theorem dormant_flag_after_listModify (conns : List server_uart_connection_t)
    (j : Nat) (b : Bool) (hj : j < conns.length) :
    ((listModify (fun c => { c with is_dormant := b }) j conns)[j]?).map
      (fun c => c.is_dormant) = some b := by
  rw [listModify_getElem?_self _ j _ hj]
  rfl

theorem claim_C4_part_load (st : ServerState) (cfg i : Nat)
    (hi : i < st.flash.clients.length)
    (hj5 : get_active_client_connection_index_from_flash_client_index
      st.conns st.flash.clients i < 256)
    (hj : get_active_client_connection_index_from_flash_client_index
      st.conns st.flash.clients i < st.conns.length) :
    (((load_configuration_into_running_state st cfg i).1).conns[
        get_active_client_connection_index_from_flash_client_index
          st.conns st.flash.clients i]?.map (fun c => c.is_dormant)
      = some (!client_has_active_devices
          ((((load_configuration_into_running_state st cfg i).1).flash.clients[i]?).getD
            dummy_client))) := by
  have hga := get_active_index_listModify st.conns st.flash.clients i
    (fun c => { c with running_client_state := c.preset_configs[cfg]?.getD c.running_client_state })
    (fun c => rfl)
  have hcl1 : (listModify (fun c =>
      { c with running_client_state := c.preset_configs[cfg]?.getD c.running_client_state })
      i st.flash.clients)[i]? = some ((fun c =>
      { c with running_client_state := c.preset_configs[cfg]?.getD c.running_client_state })
      st.flash.clients[i]) := listModify_getElem?_self _ i _ hi
  simp only [load_configuration_into_running_state]
  cases hact : client_has_active_devices ((listModify (fun c =>
      { c with running_client_state := c.preset_configs[cfg]?.getD c.running_client_state })
      i st.flash.clients)[i]?.getD dummy_client) with
  | true =>
    simp only [hact, Bool.not_true, Bool.false_eq_true, if_false,
      save_server_state_clients, hga, Nat.mod_eq_of_lt hj5]
    rw [dormant_flag_after_listModify st.conns _ false hj]
  | false =>
    simp only [hact, Bool.not_false, if_true,
      save_server_state_clients, hga, Nat.mod_eq_of_lt hj5]
    rw [dormant_flag_after_listModify st.conns _ true hj]

theorem listModify_getElem_self {α : Type} (f : α → α) (i : Nat) (l : List α)
    (h : i < l.length) (h2 : i < (listModify f i l).length) :
    (listModify f i l)[i] = f l[i] := by
  have ha := listModify_getElem?_self f i l h
  rw [List.getElem?_eq_getElem h2] at ha
  exact Option.some.inj ha

theorem claim_C4_part_reset_running (st : ServerState) (i : Nat)
    (hi : i < st.flash.clients.length)
    (hj5 : get_active_client_connection_index_from_flash_client_index
      st.conns st.flash.clients i < 256)
    (hj : get_active_client_connection_index_from_flash_client_index
      st.conns st.flash.clients i < st.conns.length)
    (hoff : reserved_slots_off
      ((st.flash.clients[i]?.getD dummy_client).running_client_state) = true) :
    ((reset_running_configuration st i).1).conns[
        get_active_client_connection_index_from_flash_client_index
          st.conns st.flash.clients i]?.map (fun c => c.is_dormant) = some true ∧
    client_has_active_devices
      ((((reset_running_configuration st i).1).flash.clients[i]?).getD dummy_client)
      = false := by
  have hga := get_active_index_listModify st.conns st.flash.clients i
    (fun c => { c with running_client_state := server_reset_configuration c.running_client_state })
    (fun c => rfl)
  have hcl1 : (listModify (fun c =>
      { c with running_client_state := server_reset_configuration c.running_client_state })
      i st.flash.clients)[i]? = some ((fun c =>
      { c with running_client_state := server_reset_configuration c.running_client_state })
      st.flash.clients[i]) := listModify_getElem?_self _ i _ hi
  have hoff2 : reserved_slots_off (st.flash.clients[i]).running_client_state = true := by
    rwa [List.getElem?_eq_getElem hi] at hoff
  simp only [reset_running_configuration, save_server_state_clients, hga,
    Nat.mod_eq_of_lt hj5, hcl1, Option.getD_some]
  refine ⟨dormant_flag_after_listModify st.conns _ true hj, ?_⟩
  exact any_eq_false_of_all_off _ (reset_all_off _ hoff2)

theorem claim_C4_part_reset_all (st : ServerState) (i : Nat)
    (hi : i < st.flash.clients.length)
    (hj5 : get_active_client_connection_index_from_flash_client_index
      st.conns st.flash.clients i < 256)
    (hj : get_active_client_connection_index_from_flash_client_index
      st.conns st.flash.clients i < st.conns.length)
    (hoff : reserved_slots_off
      ((st.flash.clients[i]?.getD dummy_client).running_client_state) = true) :
    ((reset_all_client_data st i).1).conns[
        get_active_client_connection_index_from_flash_client_index
          st.conns st.flash.clients i]?.map (fun c => c.is_dormant) = some true ∧
    client_has_active_devices
      ((((reset_all_client_data st i).1).flash.clients[i]?).getD dummy_client)
      = false := by
  have hga := get_active_index_listModify st.conns st.flash.clients i
    (fun c => { c with running_client_state := server_reset_configuration c.running_client_state })
    (fun c => rfl)
  have hi1 : i < (listModify (fun c =>
      { c with running_client_state := server_reset_configuration c.running_client_state })
      i st.flash.clients).length := by
    rw [listModify_length]; exact hi
  have hcl2 : (listModify (fun c =>
      { c with preset_configs := c.preset_configs.map server_reset_configuration }) i
      (listModify (fun c =>
        { c with running_client_state := server_reset_configuration c.running_client_state })
        i st.flash.clients))[i]? = some ((fun c =>
      { c with preset_configs := c.preset_configs.map server_reset_configuration })
      ((fun c =>
        { c with running_client_state := server_reset_configuration c.running_client_state })
        st.flash.clients[i])) := by
    rw [listModify_getElem?_self _ i _ hi1,
      listModify_getElem_self _ i _ hi hi1]
  have hoff2 : reserved_slots_off (st.flash.clients[i]).running_client_state = true := by
    rwa [List.getElem?_eq_getElem hi] at hoff
  simp only [reset_all_client_data, save_server_state_clients, hga,
    Nat.mod_eq_of_lt hj5, hcl2, Option.getD_some]
  refine ⟨dormant_flag_after_listModify st.conns _ true hj, ?_⟩
  exact any_eq_false_of_all_off _ (reset_all_off _ hoff2)

/-- Counterexample for C4: on the demo state (one dormant connection,
every device off) committing device 5 on through
server_set_device_state_and_update_flash yields a state whose committed
running set has a device on and whose matching active connection (index
0) still has is_dormant = true, where the claim requires false. -/
theorem claim_C4_counterexample :
    client_has_active_devices ((server_set_device_state_and_update_flash demo_server_state ⟨0, 1⟩ 5 true 0).1.flash.clients.headD dummy_client) = true ∧
    get_active_client_connection_index_from_flash_client_index (server_set_device_state_and_update_flash demo_server_state ⟨0, 1⟩ 5 true 0).1.conns (server_set_device_state_and_update_flash demo_server_state ⟨0, 1⟩ 5 true 0).1.flash.clients 0 = 0 ∧
    dormant_at (server_set_device_state_and_update_flash demo_server_state ⟨0, 1⟩ 5 true 0).1.conns 0 = true := by
  refine ⟨?_, ?_, ?_⟩ <;> rfl

/-- C4 amended: loading a preset into the running state sets the matched
active connection's is_dormant flag to whether the committed running set
has zero devices on, and the running-set resets (reset running, reset
all) set it to true while their committed running set indeed has zero
devices on (given the reserved slots were off); but
server_set_device_state_and_update_flash commits a new running set
without touching any dormant flag, so the claimed correspondence fails
for the set-one-device operation. -/
theorem claim_C4_dormant_flag_updates (st : ServerState) (cfg i : Nat)
    (hi : i < st.flash.clients.length)
    (hc : st.conns.length ≤ MAX_SERVER_CONNECTIONS)
    (hj : get_active_client_connection_index_from_flash_client_index
      st.conns st.flash.clients i < st.conns.length)
    (hoff : reserved_slots_off
      ((st.flash.clients[i]?.getD dummy_client).running_client_state) = true) :
    (∀ pp g v, ((server_set_device_state_and_update_flash st pp g v i).1).conns = st.conns) ∧
    (((load_configuration_into_running_state st cfg i).1).conns[
        get_active_client_connection_index_from_flash_client_index
          st.conns st.flash.clients i]?.map (fun c => c.is_dormant)
      = some (!client_has_active_devices
          ((((load_configuration_into_running_state st cfg i).1).flash.clients[i]?).getD
            dummy_client))) ∧
    (((reset_running_configuration st i).1).conns[
        get_active_client_connection_index_from_flash_client_index
          st.conns st.flash.clients i]?.map (fun c => c.is_dormant) = some true ∧
      client_has_active_devices
        ((((reset_running_configuration st i).1).flash.clients[i]?).getD dummy_client)
        = false) ∧
    (((reset_all_client_data st i).1).conns[
        get_active_client_connection_index_from_flash_client_index
          st.conns st.flash.clients i]?.map (fun c => c.is_dormant) = some true ∧
      client_has_active_devices
        ((((reset_all_client_data st i).1).flash.clients[i]?).getD dummy_client)
        = false) := by
  have hj5 : get_active_client_connection_index_from_flash_client_index
      st.conns st.flash.clients i < 256 := by
    have hm : MAX_SERVER_CONNECTIONS ≤ 256 := by
      norm_num [MAX_SERVER_CONNECTIONS, PIN_PAIRS_UART0_LEN, PIN_PAIRS_UART1_LEN]
    omega
  exact ⟨fun pp g v => rfl,
    claim_C4_part_load st cfg i hi hj5 hj,
    claim_C4_part_reset_running st i hi hj5 hj hoff,
    claim_C4_part_reset_all st i hi hj5 hj hoff⟩

/-- Witness for the amended C4 on the demo state. -/
theorem claim_C4_dormant_flag_updates_witness :
    (0 < demo_server_state.flash.clients.length ∧
      demo_server_state.conns.length ≤ MAX_SERVER_CONNECTIONS ∧
      get_active_client_connection_index_from_flash_client_index
        demo_server_state.conns demo_server_state.flash.clients 0 <
          demo_server_state.conns.length ∧
      reserved_slots_off
        ((demo_server_state.flash.clients[0]?.getD dummy_client).running_client_state) = true) ∧
    ((∀ pp g v, ((server_set_device_state_and_update_flash demo_server_state pp g v 0).1).conns
        = demo_server_state.conns) ∧
    (((load_configuration_into_running_state demo_server_state 2 0).1).conns[
        get_active_client_connection_index_from_flash_client_index
          demo_server_state.conns demo_server_state.flash.clients 0]?.map
            (fun c => c.is_dormant)
      = some (!client_has_active_devices
          ((((load_configuration_into_running_state demo_server_state 2 0).1).flash.clients[0]?).getD
            dummy_client))) ∧
    (((reset_running_configuration demo_server_state 0).1).conns[
        get_active_client_connection_index_from_flash_client_index
          demo_server_state.conns demo_server_state.flash.clients 0]?.map
            (fun c => c.is_dormant) = some true ∧
      client_has_active_devices
        ((((reset_running_configuration demo_server_state 0).1).flash.clients[0]?).getD
          dummy_client) = false) ∧
    (((reset_all_client_data demo_server_state 0).1).conns[
        get_active_client_connection_index_from_flash_client_index
          demo_server_state.conns demo_server_state.flash.clients 0]?.map
            (fun c => c.is_dormant) = some true ∧
      client_has_active_devices
        ((((reset_all_client_data demo_server_state 0).1).flash.clients[0]?).getD
          dummy_client) = false)) :=
  ⟨⟨by decide, by decide, by decide, by decide⟩,
    claim_C4_dormant_flag_updates demo_server_state 2 0
      (by decide) (by decide) (by decide) (by decide)⟩

/-- Counterexample for C5: server_send_client_state begins with a wake
pulse even toward a non-dormant connection, and
send_dormant_flag_to_client sends toward a dormant connection with no
wake pulse, so a wake pulse precedes the payload neither only if nor
always when the connection is dormant. -/
theorem claim_C5_counterexample :
    demo_connection_awake.is_dormant = false ∧
    (server_send_client_state demo_connection_awake.pin_pair ⟨default_devices⟩).head?
      = some (TxEvent.wakePulse demo_connection_awake.pin_pair.rx) ∧
    has_wake_pulse
      (server_send_client_state demo_connection_awake.pin_pair ⟨default_devices⟩) = true ∧
    demo_connection.is_dormant = true ∧
    has_wake_pulse (send_dormant_flag_to_client [demo_connection] 0) = false := by
  refine ⟨rfl, rfl, ?_, rfl, rfl⟩
  decide

/-- C5 amended: the dormant-aware single-device send emits a wake pulse
before its payload exactly when the matched connection is marked
dormant, and likewise the per-connection segment of the broadcast flag
send; but server_send_client_state always begins with a wake pulse
regardless of the dormant mark, and send_dormant_flag_to_client never
emits one. -/
theorem claim_C5_wake_pulse_iff_dormant (conns : List server_uart_connection_t)
    (clients : List client_t) (i : Nat) (pp : uart_pin_pair_t) (g : Nat) (onn : Bool)
    (flag j : Nat)
    (hj : get_active_client_connection_index_from_flash_client_index conns clients i <
      conns.length)
    (hc : conns.length ≤ MAX_SERVER_CONNECTIONS) :
    (server_send_device_state conns clients i pp g onn =
      (if dormant_at conns
          (get_active_client_connection_index_from_flash_client_index conns clients i) then
        wake_up_client pp
      else []) ++ [TxEvent.uartMsg g (if onn then 1 else 0)]) ∧
    (has_wake_pulse (server_send_device_state conns clients i pp g onn) =
      dormant_at conns
        (get_active_client_connection_index_from_flash_client_index conns clients i)) ∧
    (∀ (pp2 : uart_pin_pair_t) (cs : client_state_t),
      (server_send_client_state pp2 cs).head? = some (TxEvent.wakePulse pp2.rx) ∧
      has_wake_pulse (server_send_client_state pp2 cs) = true) ∧
    (has_wake_pulse (send_dormant_flag_to_client conns j) = false) ∧
    (j < conns.length →
      has_wake_pulse
        ((if dormant_at conns j then wake_up_client (conn_pin_pair conns j) else []) ++
          send_flag_message_to_client conns flag j) = dormant_at conns j) := by
  have hj256 : get_active_client_connection_index_from_flash_client_index conns clients i
      < 256 := by
    have hm : MAX_SERVER_CONNECTIONS ≤ 256 := by
      norm_num [MAX_SERVER_CONNECTIONS, PIN_PAIRS_UART0_LEN, PIN_PAIRS_UART1_LEN]
    omega
  have hmod : get_active_client_connection_index_from_flash_client_index conns clients i
      % 256 = get_active_client_connection_index_from_flash_client_index conns clients i :=
    Nat.mod_eq_of_lt hj256
  refine ⟨?_, ?_, ?_, ?_, ?_⟩
  · unfold server_send_device_state send_wakeup_if_dormant
    rw [hmod]
  · unfold server_send_device_state send_wakeup_if_dormant
    rw [hmod]
    cases hd : dormant_at conns
        (get_active_client_connection_index_from_flash_client_index conns clients i) <;>
      simp [hd, has_wake_pulse, wake_up_client, is_wake_pulse_event]
  · intro pp2 cs
    refine ⟨rfl, ?_⟩
    simp [server_send_client_state, has_wake_pulse, wake_up_client, is_wake_pulse_event]
  · rfl
  · intro hjlen
    cases hd : dormant_at conns j <;>
      simp [hd, has_wake_pulse, wake_up_client, is_wake_pulse_event,
        send_flag_message_to_client, send_dormant_if_is_dormant_is_true,
        send_dormant_flag_to_client]

/-- Witness for the amended C5 on the demo registry. -/
theorem claim_C5_wake_pulse_iff_dormant_witness :
    (get_active_client_connection_index_from_flash_client_index
        [demo_connection] demo_clients 0 < ([demo_connection] : List server_uart_connection_t).length ∧
      ([demo_connection] : List server_uart_connection_t).length ≤ MAX_SERVER_CONNECTIONS) ∧
    ((server_send_device_state [demo_connection] demo_clients 0 ⟨0, 1⟩ 5 true =
      (if dormant_at [demo_connection]
          (get_active_client_connection_index_from_flash_client_index
            [demo_connection] demo_clients 0) then
        wake_up_client ⟨0, 1⟩
      else []) ++ [TxEvent.uartMsg 5 (if true then 1 else 0)]) ∧
    (has_wake_pulse (server_send_device_state [demo_connection] demo_clients 0 ⟨0, 1⟩ 5 true) =
      dormant_at [demo_connection]
        (get_active_client_connection_index_from_flash_client_index
          [demo_connection] demo_clients 0)) ∧
    (∀ (pp2 : uart_pin_pair_t) (cs : client_state_t),
      (server_send_client_state pp2 cs).head? = some (TxEvent.wakePulse pp2.rx) ∧
      has_wake_pulse (server_send_client_state pp2 cs) = true) ∧
    (has_wake_pulse (send_dormant_flag_to_client [demo_connection] 0) = false) ∧
    (0 < ([demo_connection] : List server_uart_connection_t).length →
      has_wake_pulse
        ((if dormant_at [demo_connection] 0 then
            wake_up_client (conn_pin_pair [demo_connection] 0)
          else []) ++
          send_flag_message_to_client [demo_connection] 66 0) =
        dormant_at [demo_connection] 0)) :=
  ⟨⟨by decide, by decide⟩,
    claim_C5_wake_pulse_iff_dormant [demo_connection] demo_clients 0 ⟨0, 1⟩ 5 true 66 0
      (by decide) (by decide)⟩

/-!  Registry reconciliation not-found handling (claim C6).  -/

/-- C6 evaluation at a failing input: with only the (0, 1) connection
active, flash record 1 (link TX pin 12) matches no active connection, so
the reconciliation returns INVALID_CLIENT_INDEX (2 ^ 32 - 1 through the
uint32_t return type); send_wakeup_if_dormant stores that into a uint8_t
local, giving index 255, and active_uart_server_connections[255] is out
of bounds both for the live connection count and for the whole
MAX_SERVER_CONNECTIONS-entry array, so the C read is past the array. -/
theorem claim_C6_invalid_index_out_of_bounds :
    get_active_client_connection_index_from_flash_client_index
      [demo_connection] demo_clients 1 = INVALID_CLIENT_INDEX_U32 ∧
    INVALID_CLIENT_INDEX_U32 % 256 = 255 ∧
    ([demo_connection] : List server_uart_connection_t).length ≤ MAX_SERVER_CONNECTIONS ∧
    MAX_SERVER_CONNECTIONS ≤ 255 ∧
    (([demo_connection] : List server_uart_connection_t)[
        INVALID_CLIENT_INDEX_U32 % 256]? = none) := by
  refine ⟨by decide, by decide, by decide, by decide, by decide⟩

/-- C8: the client replies with the accept literal and records the
candidate exactly when the decoded echo equals the pair just sent; a
mismatched or empty (timed-out) echo leaves the candidate unaccepted;
the scan records the first succeeding candidate and releases the pins of
exactly the candidates tried before it, in order; and when every
candidate fails the scan records nothing and releases them all. -/
theorem claim_C8_handshake_accept (echo : uart_pin_pair_t → String) (inst : Nat) :
    (∀ (buf : String) (pp : uart_pin_pair_t),
      ((client_uart_read buf pp).accepted = true ↔
        get_number_pair buf = (pp.tx, pp.rx)) ∧
      ((client_uart_read buf pp).accepted = true →
        (client_uart_read buf pp).sent = [accept_message]) ∧
      ((client_uart_read buf pp).accepted = false → (client_uart_read buf pp).sent = [])) ∧
    (∀ pp : uart_pin_pair_t, pp.rx ≠ 0 → (client_uart_read "" pp).accepted = false) ∧
    (∀ (l1 : List uart_pin_pair_t) (p : uart_pin_pair_t) (l2 : List uart_pin_pair_t),
      (∀ q ∈ l1, client_test_uart_pair echo q = false) →
      client_test_uart_pair echo p = true →
      client_scan_pairs echo inst (l1 ++ p :: l2) = ⟨some ⟨p, inst⟩, l1⟩) ∧
    (∀ pps : List uart_pin_pair_t,
      (∀ q ∈ pps, client_test_uart_pair echo q = false) →
      client_scan_pairs echo inst pps = ⟨none, pps⟩) := by
  refine ⟨?_, ?_, ?_, ?_⟩
  · intro buf pp
    unfold client_uart_read
    by_cases h : (get_number_pair buf).1 = pp.tx ∧ (get_number_pair buf).2 = pp.rx
    · rw [if_pos h]
      refine ⟨⟨fun _ => ?_, fun _ => rfl⟩, fun _ => rfl, fun hfalse => by simp at hfalse⟩
      exact Prod.ext_iff.2 h
    · rw [if_neg h]
      refine ⟨⟨fun htrue => by simp at htrue, fun heq => ?_⟩, fun htrue => by simp at htrue,
        fun _ => rfl⟩
      exact absurd (Prod.ext_iff.1 heq) h
  · intro pp hrx
    unfold client_uart_read
    rw [if_neg]
    intro h
    exact hrx (h.2.symm.trans rfl)
  · intro l1
    induction l1 with
    | nil =>
      intro p l2 _ hp
      simp [client_scan_pairs, hp]
    | cons q qs ih =>
      intro p l2 hl1 hp
      have hq : client_test_uart_pair echo q = false := hl1 q (List.mem_cons_self q qs)
      have hqs : ∀ r ∈ qs, client_test_uart_pair echo r = false :=
        fun r hr => hl1 r (List.mem_cons_of_mem q hr)
      simp only [List.cons_append, client_scan_pairs, hq, Bool.false_eq_true, if_false,
        List.append_eq, ih p l2 hqs hp]
  · intro pps
    induction pps with
    | nil => intro _; rfl
    | cons q qs ih =>
      intro hall
      have hq : client_test_uart_pair echo q = false := hall q (List.mem_cons_self q qs)
      have hqs : ∀ r ∈ qs, client_test_uart_pair echo r = false :=
        fun r hr => hall r (List.mem_cons_of_mem q hr)
      simp only [client_scan_pairs, hq, Bool.false_eq_true, if_false, ih hqs]

/-- Witness for C8: with the demo oracle the UART0 scan fails on (0, 1),
succeeds on (12, 13), records it and releases exactly (0, 1). -/
theorem claim_C8_handshake_accept_witness :
    (∀ q ∈ [(⟨0, 1⟩ : uart_pin_pair_t)], client_test_uart_pair demo_echo q = false) ∧
    client_test_uart_pair demo_echo ⟨12, 13⟩ = true ∧
    client_scan_pairs demo_echo uart0
      ([⟨0, 1⟩] ++ (⟨12, 13⟩ : uart_pin_pair_t) :: [⟨16, 17⟩]) =
      ⟨some ⟨⟨12, 13⟩, uart0⟩, [⟨0, 1⟩]⟩ :=
  ⟨by decide, by decide,
    (claim_C8_handshake_accept demo_echo uart0).2.2.1 [⟨0, 1⟩] ⟨12, 13⟩ [⟨16, 17⟩]
      (by decide) (by decide)⟩
